import Mathlib

/-!
Shallow embedding of the storage module of `tauri-lottery-machine`
(`src/src-tauri/src/storage.rs`), the persistence/integrity layer of a
lottery application, together with proofs of its specification claims.

Modelling conventions:
* Rust `u32` fields are `Nat`; arithmetic performed by the source on `u32`
  values is taken modulo `2^32` (release-profile wrapping semantics), and the
  `as u32` cast of `usize` is truncation modulo `2^32`.
* Rust `i64` fields are `Int`.  Well-formedness predicates (`wf*`) record the
  range bounds that the Rust types guarantee.
* `serde_json` documents are modelled as a JSON tree `Json` (only integral
  numbers occur in this schema).  The derived `Serialize`/`Deserialize`
  instances of the source are transcribed field by field, with the exact
  `serde(rename)` field names and `rename_all = "lowercase"` color strings.
* The filesystem is a map from path strings to file entries; an entry is
  either readable bytes (a parsed-or-malformed content value) or an
  unreadable file carrying its I/O error text.  Writes succeed; directory
  creation by `get_data_path` and the user-documents prefix of the paths are
  environment details that no claim depends on and are left out.
-/

/-- Rust enum `PrizeColor` (serde `rename_all = "lowercase"`). -/
inductive PrizeColor where
  | red
  | yellow
  | blue
deriving DecidableEq

/-- Rust struct `Prize`. -/
structure Prize where
  id : String
  color : PrizeColor
  name : String
  description : Option String
  icon : Option String
deriving DecidableEq

/-- Rust struct `LotteryResult`. -/
structure LotteryResult where
  prize_id : String
  timestamp : Int
  cycle_id : String
  draw_number : Nat
deriving DecidableEq

/-- Rust struct `RemainingDraws`. -/
structure RemainingDraws where
  red : Nat
  yellow : Nat
  blue : Nat
deriving DecidableEq

/-- Rust struct `LotteryCycle`. -/
structure LotteryCycle where
  id : String
  start_time : Int
  end_time : Option Int
  results : List LotteryResult
  completed : Bool
  remaining_draws : RemainingDraws
deriving DecidableEq

/-- Rust struct `LotteryConfig`. -/
structure LotteryConfig where
  draws_per_cycle : Nat
  draws_per_color : Nat
  enable_animations : Bool
  animation_duration : Nat
deriving DecidableEq

/-- Rust struct `LotteryState`. -/
structure LotteryState where
  current_cycle : LotteryCycle
  history : List LotteryCycle
  available_prizes : List Prize
  config : LotteryConfig
deriving DecidableEq

/-- Modulus of Rust `u32` arithmetic. -/
def U32MOD : Nat := 4294967296

/-- Lower bound of Rust `i64`. -/
def I64MIN : Int := -9223372036854775808

/-- One past the upper bound of Rust `i64`. -/
def I64TOP : Int := 9223372036854775808

/-- Range bound guaranteed by the Rust type `u32`. -/
def wfU32 (n : Nat) : Bool := decide (n < U32MOD)

/-- Range bound guaranteed by the Rust type `i64`. -/
def wfI64 (n : Int) : Bool := decide (I64MIN ≤ n ∧ n < I64TOP)

/-- Range bounds of the numeric fields of `LotteryResult`. -/
def wfResult (r : LotteryResult) : Bool :=
  wfI64 r.timestamp && wfU32 r.draw_number

/-- Range bounds of the numeric fields of `RemainingDraws`. -/
def wfRemaining (d : RemainingDraws) : Bool :=
  wfU32 d.red && wfU32 d.yellow && wfU32 d.blue

/-- Range bounds of the numeric fields of `LotteryCycle`. -/
def wfCycle (c : LotteryCycle) : Bool :=
  wfI64 c.start_time &&
  (match c.end_time with
   | none => true
   | some t => wfI64 t) &&
  c.results.all wfResult &&
  wfRemaining c.remaining_draws

/-- Range bounds of the numeric fields of `LotteryConfig`. -/
def wfConfig (c : LotteryConfig) : Bool :=
  wfU32 c.draws_per_cycle && wfU32 c.draws_per_color && wfU32 c.animation_duration

/-- Range bounds of all numeric fields of a `LotteryState`: every value of the
Rust struct satisfies these by its types. -/
def wfState (s : LotteryState) : Bool :=
  wfCycle s.current_cycle && s.history.all wfCycle && wfConfig s.config

/-- JSON documents (only integral numbers occur in this schema). -/
inductive Json where
  | null
  | bool (b : Bool)
  | num (n : Int)
  | str (s : String)
  | arr (elems : List Json)
  | obj (fields : List (String × Json))

/-- Serialization of `PrizeColor` (serde `rename_all = "lowercase"`). -/
def encodeColor : PrizeColor → Json
  | .red => .str ("red")
  | .yellow => .str ("yellow")
  | .blue => .str ("blue")

/-- Serialization of an `Option<String>` field (serde emits `null` for `None`). -/
def encodeOptStr : Option String → Json
  | none => .null
  | some s => .str s

/-- Serialization of an `Option<i64>` field (serde emits `null` for `None`). -/
def encodeOptI64 : Option Int → Json
  | none => .null
  | some t => .num t

/-- Derived `Serialize` of `Prize`, fields in declaration order. -/
def encodePrize (p : Prize) : Json :=
  .obj [("id", .str p.id), ("color", encodeColor p.color), ("name", .str p.name),
        ("description", encodeOptStr p.description), ("icon", encodeOptStr p.icon)]

/-- Derived `Serialize` of `LotteryResult` with the `serde(rename)` names. -/
def encodeResult (r : LotteryResult) : Json :=
  .obj [("prizeId", .str r.prize_id), ("timestamp", .num r.timestamp),
        ("cycleId", .str r.cycle_id), ("drawNumber", .num (Int.ofNat r.draw_number))]

/-- Derived `Serialize` of `RemainingDraws`. -/
def encodeRemaining (d : RemainingDraws) : Json :=
  .obj [("red", .num (Int.ofNat d.red)), ("yellow", .num (Int.ofNat d.yellow)),
        ("blue", .num (Int.ofNat d.blue))]

/-- Derived `Serialize` of `LotteryCycle` with the `serde(rename)` names. -/
def encodeCycle (c : LotteryCycle) : Json :=
  .obj [("id", .str c.id), ("startTime", .num c.start_time),
        ("endTime", encodeOptI64 c.end_time),
        ("results", .arr (c.results.map encodeResult)),
        ("completed", .bool c.completed),
        ("remainingDraws", encodeRemaining c.remaining_draws)]

/-- Derived `Serialize` of `LotteryConfig` with the `serde(rename)` names. -/
def encodeConfig (c : LotteryConfig) : Json :=
  .obj [("drawsPerCycle", .num (Int.ofNat c.draws_per_cycle)),
        ("drawsPerColor", .num (Int.ofNat c.draws_per_color)),
        ("enableAnimations", .bool c.enable_animations),
        ("animationDuration", .num (Int.ofNat c.animation_duration))]

/-- Derived `Serialize` of `LotteryState` with the `serde(rename)` names: the
encoding written by `save_lottery_data` (via `serde_json::to_string_pretty`). -/
def encodeState (s : LotteryState) : Json :=
  .obj [("currentCycle", encodeCycle s.current_cycle),
        ("history", .arr (s.history.map encodeCycle)),
        ("availablePrizes", .arr (s.available_prizes.map encodePrize)),
        ("config", encodeConfig s.config)]

/-- Field lookup in a JSON object (first occurrence). -/
def findField : List (String × Json) → String → Option Json
  | [], _ => none
  | (k, v) :: rest, key => if k = key then some v else findField rest key

/-- Required field access: a missing field is a deserialization error. -/
def getField (o : List (String × Json)) (key : String) : Except String Json :=
  match findField o key with
  | some v => .ok v
  | none => .error (("missing field ") ++ key)

/-- Expect a JSON object. -/
def asObj : Json → Except String (List (String × Json))
  | .obj o => .ok o
  | _ => .error ("expected object")

/-- Deserialize a Rust `String`. -/
def decodeString : Json → Except String String
  | .str s => .ok s
  | _ => .error ("expected string")

/-- Deserialize a Rust `bool`. -/
def decodeBool : Json → Except String Bool
  | .bool b => .ok b
  | _ => .error ("expected bool")

/-- Deserialize a Rust `u32`: serde rejects negative or too-large numbers
(the check is `0 ≤ n < 2^32`, here split on the sign of the integer). -/
def decodeU32 : Json → Except String Nat
  | .num (.ofNat m) => if m < 4294967296 then .ok m else .error ("u32 out of range")
  | .num (.negSucc _) => .error ("u32 out of range")
  | _ => .error ("expected number")

/-- Deserialize a Rust `i64`: serde rejects numbers outside `[-2^63, 2^63)`
(here split on the sign of the integer: `-(m+1) ≥ -2^63` iff `m < 2^63`). -/
def decodeI64 : Json → Except String Int
  | .num (.ofNat m) =>
    if m < 9223372036854775808 then .ok (Int.ofNat m) else .error ("i64 out of range")
  | .num (.negSucc m) =>
    if m < 9223372036854775808 then .ok (Int.negSucc m) else .error ("i64 out of range")
  | _ => .error ("expected number")

/-- Deserialize `PrizeColor` from its lowercase string form. -/
def decodeColor : Json → Except String PrizeColor
  | .str s =>
    if s = ("red") then .ok .red
    else if s = ("yellow") then .ok .yellow
    else if s = ("blue") then .ok .blue
    else .error ("unknown color")
  | _ => .error ("expected color string")

/-- Deserialize an `Option` field: serde maps a missing field or `null` to
`None`, anything else through the inner deserializer. -/
def decodeOptWith (d : Json → Except String α) : Option Json → Except String (Option α)
  | none => .ok none
  | some .null => .ok none
  | some j => do
    let a ← d j
    .ok (some a)

/-- Deserialize the elements of a JSON array in order. -/
def decodeMany (d : Json → Except String α) : List Json → Except String (List α)
  | [] => .ok []
  | j :: js => do
    let a ← d j
    let as ← decodeMany d js
    .ok (a :: as)

/-- Deserialize a Rust `Vec`. -/
def decodeArr (d : Json → Except String α) : Json → Except String (List α)
  | .arr xs => decodeMany d xs
  | _ => .error ("expected array")

/-- Derived `Deserialize` of `Prize`. -/
def decodePrize (j : Json) : Except String Prize := do
  let o ← asObj j
  let id ← decodeString (← getField o ("id"))
  let color ← decodeColor (← getField o ("color"))
  let name ← decodeString (← getField o ("name"))
  let description ← decodeOptWith decodeString (findField o ("description"))
  let icon ← decodeOptWith decodeString (findField o ("icon"))
  .ok { id := id, color := color, name := name, description := description, icon := icon }

/-- Derived `Deserialize` of `LotteryResult`. -/
def decodeResult (j : Json) : Except String LotteryResult := do
  let o ← asObj j
  let pid ← decodeString (← getField o ("prizeId"))
  let ts ← decodeI64 (← getField o ("timestamp"))
  let cid ← decodeString (← getField o ("cycleId"))
  let dn ← decodeU32 (← getField o ("drawNumber"))
  .ok { prize_id := pid, timestamp := ts, cycle_id := cid, draw_number := dn }

/-- Derived `Deserialize` of `RemainingDraws`. -/
def decodeRemaining (j : Json) : Except String RemainingDraws := do
  let o ← asObj j
  let red ← decodeU32 (← getField o ("red"))
  let yellow ← decodeU32 (← getField o ("yellow"))
  let blue ← decodeU32 (← getField o ("blue"))
  .ok { red := red, yellow := yellow, blue := blue }

/-- Derived `Deserialize` of `LotteryCycle`. -/
def decodeCycle (j : Json) : Except String LotteryCycle := do
  let o ← asObj j
  let id ← decodeString (← getField o ("id"))
  let st ← decodeI64 (← getField o ("startTime"))
  let et ← decodeOptWith decodeI64 (findField o ("endTime"))
  let rs ← decodeArr decodeResult (← getField o ("results"))
  let comp ← decodeBool (← getField o ("completed"))
  let rem ← decodeRemaining (← getField o ("remainingDraws"))
  .ok { id := id, start_time := st, end_time := et, results := rs,
        completed := comp, remaining_draws := rem }

/-- Derived `Deserialize` of `LotteryConfig`. -/
def decodeConfig (j : Json) : Except String LotteryConfig := do
  let o ← asObj j
  let dpc ← decodeU32 (← getField o ("drawsPerCycle"))
  let dpcolor ← decodeU32 (← getField o ("drawsPerColor"))
  let ea ← decodeBool (← getField o ("enableAnimations"))
  let ad ← decodeU32 (← getField o ("animationDuration"))
  .ok { draws_per_cycle := dpc, draws_per_color := dpcolor,
        enable_animations := ea, animation_duration := ad }

/-- Derived `Deserialize` of `LotteryState`: the structural schema check
applied by `load_lottery_data`, `restore_from_backup` and `validate_data`. -/
def decodeState (j : Json) : Except String LotteryState := do
  let o ← asObj j
  let cc ← decodeCycle (← getField o ("currentCycle"))
  let hist ← decodeArr decodeCycle (← getField o ("history"))
  let prizes ← decodeArr decodePrize (← getField o ("availablePrizes"))
  let cfg ← decodeConfig (← getField o ("config"))
  .ok { current_cycle := cc, history := hist, available_prizes := prizes, config := cfg }

/-- Contents of a readable file: bytes that parse as a JSON document, or
bytes that are not valid JSON at all (serde_json rejects them before any
schema matching). -/
inductive FileContent where
  | json (j : Json)
  | malformed (raw : String)

/-- A file on disk: readable contents, or a file that exists but whose read
fails, carrying the underlying I/O error text. -/
inductive FileEntry where
  | ok (c : FileContent)
  | unreadable (msg : String)

/-- The filesystem: a map from path strings to file entries. -/
def FS : Type := String → Option FileEntry

/-- Overwrite (or create) the file at `p` with readable content `c`. -/
def writeFile (fs : FS) (p : String) (c : FileContent) : FS :=
  fun q => if q = p then some (.ok c) else fs q

/-- Full decoding of file bytes as done by `serde_json::from_str::<LotteryState>`:
JSON parsing followed by the structural schema. -/
def decodeContent : FileContent → Except String LotteryState
  | .json j => decodeState j
  | .malformed _ => .error ("JSON parse failure")

/-- The application data directory `<user-documents>/lottery-game` computed by
`get_data_path`/`get_backup_path` (the environment-dependent user-documents
prefix is irrelevant to every claim and elided). -/
def lotteryDir : String := "lottery-game"

/-- The fixed live data path `<user-documents>/lottery-game/data.json`. -/
def dataPath : String := lotteryDir ++ ("/data.json")

/-- The backup path `data_backup_<timestamp>.json` in the same directory,
where `ts` is the `%Y%m%d_%H%M%S`-formatted (one-second resolution) UTC time
produced by `get_backup_path`. -/
def backupPath (ts : String) : String :=
  lotteryDir ++ ("/data_backup_") ++ ts ++ (".json")

/-- Rust `create_default_prizes`: the fixed six-entry catalog. -/
def create_default_prizes : List Prize :=
  [ { id := "prize_red_1", color := .red, name := "红色大奖",
      description := some ("价值丰厚的红色奖品"), icon := none },
    { id := "prize_red_2", color := .red, name := "红色好礼",
      description := some ("精美的红色礼品"), icon := none },
    { id := "prize_yellow_1", color := .yellow, name := "黄色大奖",
      description := some ("价值丰厚的黄色奖品"), icon := none },
    { id := "prize_yellow_2", color := .yellow, name := "黄色好礼",
      description := some ("精美的黄色礼品"), icon := none },
    { id := "prize_blue_1", color := .blue, name := "蓝色大奖",
      description := some ("价值丰厚的蓝色奖品"), icon := none },
    { id := "prize_blue_2", color := .blue, name := "蓝色好礼",
      description := some ("精美的蓝色礼品"), icon := none } ]

/-- Rust `create_default_state`, parameterized by its two environment inputs:
`now` (`chrono::Utc::now().timestamp_millis()`) and the simple-format UUID
string used in the cycle id. -/
def create_default_state (now : Int) (uuid : String) : LotteryState :=
  { current_cycle :=
      { id := ("cycle_") ++ toString now ++ ("_") ++ uuid,
        start_time := now,
        end_time := none,
        results := [],
        completed := false,
        remaining_draws := { red := 2, yellow := 2, blue := 2 } },
    history := [],
    available_prizes := create_default_prizes,
    config :=
      { draws_per_cycle := 6, draws_per_color := 2,
        enable_animations := true, animation_duration := 2000 } }

/-- Rust `validate_lottery_state`.  The `u32` multiplication and additions of
the source wrap modulo `2^32` (release profile), and `results.len() as u32`
truncates modulo `2^32`; the source always returns `Ok(bool)`. -/
def validate_lottery_state (state : LotteryState) : Except String Bool :=
  if state.config.draws_per_cycle = 0
      ∨ state.config.draws_per_color = 0
      ∨ state.config.draws_per_cycle ≠ (state.config.draws_per_color * 3) % U32MOD then
    .ok false
  else
    let cycle := state.current_cycle
    let total_remaining :=
      ((cycle.remaining_draws.red + cycle.remaining_draws.yellow) % U32MOD
        + cycle.remaining_draws.blue) % U32MOD
    let completed_draws := cycle.results.length % U32MOD
    if (total_remaining + completed_draws) % U32MOD ≠ state.config.draws_per_cycle then
      .ok false
    else if state.available_prizes.isEmpty then
      .ok false
    else
      .ok true

/-- Rust `save_lottery_data`: serialize (serialization of this schema cannot
fail) and write to the fixed data path, replacing prior contents. -/
def save_lottery_data (data : LotteryState) (fs : FS) : Except String Unit × FS :=
  (.ok (), writeFile fs dataPath (.json (encodeState data)))

/-- Rust `load_lottery_data`, parameterized like `create_default_state` by the
environment inputs used when the file is absent.  Performs no write. -/
def load_lottery_data (now : Int) (uuid : String) (fs : FS) :
    Except String LotteryState × FS :=
  match fs dataPath with
  | none => (.ok (create_default_state now uuid), fs)
  | some (.unreadable msg) => (.error (("读取文件失败: ") ++ msg), fs)
  | some (.ok c) =>
    match decodeContent c with
    | .error e => (.error (("数据格式错误，可能已损坏: ") ++ e), fs)
    | .ok st => (.ok st, fs)

/-- Rust `backup_data`, parameterized by the formatted timestamp `ts` of
`get_backup_path`: if the live file is absent fail with the no-data error;
otherwise copy its bytes to the backup path (`tokio_fs::copy` reads the
source and overwrites the destination). -/
def backup_data (ts : String) (fs : FS) : Except String String × FS :=
  match fs dataPath with
  | none => (.error ("没有找到数据文件，无法备份"), fs)
  | some (.unreadable msg) => (.error (("备份失败: ") ++ msg), fs)
  | some (.ok c) => (.ok (backupPath ts), writeFile fs (backupPath ts) c)

/-- Rust `restore_from_backup`: missing candidate is an error; then the
candidate bytes are read and decoded, and only after a successful decode are
the raw candidate bytes copied over the live data path. -/
def restore_from_backup (backup_path : String) (fs : FS) : Except String Unit × FS :=
  match fs backup_path with
  | none => (.error ("备份文件不存在"), fs)
  | some (.unreadable msg) => (.error (("读取备份文件失败: ") ++ msg), fs)
  | some (.ok c) =>
    match decodeContent c with
    | .error e => (.error (("备份文件格式错误: ") ++ e), fs)
    | .ok _ => (.ok (), writeFile fs dataPath c)

/-- Rust `validate_data`: absent file counts as valid; unreadable or
undecodable bytes yield `Ok(false)`; otherwise the logical check decides. -/
def validate_data (fs : FS) : Except String Bool × FS :=
  match fs dataPath with
  | none => (.ok true, fs)
  | some (.unreadable _) => (.ok false, fs)
  | some (.ok c) =>
    match decodeContent c with
    | .error _ => (.ok false, fs)
    | .ok st => (validate_lottery_state st, fs)

/-- Concrete state used by the C3 counterexample: `u32`-in-range remaining
counters `2^31 + 2^31 + 6` whose wrapped sum equals `drawsPerCycle = 6`. -/
def overflowStateA : LotteryState :=
  { current_cycle :=
      { id := "cycle_a", start_time := 0, end_time := none, results := [],
        completed := false,
        remaining_draws := { red := 2147483648, yellow := 2147483648, blue := 6 } },
    history := [],
    available_prizes := create_default_prizes,
    config := { draws_per_cycle := 6, draws_per_color := 2,
                enable_animations := true, animation_duration := 2000 } }

/-- Concrete state accepted through `u32` wraparound: `(2^32 - 1) + 1 + 6`
wraps to `6`. -/
def overflowStateB : LotteryState :=
  { current_cycle :=
      { id := "cycle_b", start_time := 0, end_time := none, results := [],
        completed := false,
        remaining_draws := { red := 4294967295, yellow := 1, blue := 6 } },
    history := [],
    available_prizes := create_default_prizes,
    config := { draws_per_cycle := 6, draws_per_color := 2,
                enable_animations := true, animation_duration := 2000 } }

/-- Frame-property fixture: duplicate prize ids, a dangling `prizeId` and
`cycleId`, inconsistent `completed`/`endTime`, and junk history. -/
def frameStateA : LotteryState :=
  { current_cycle :=
      { id := "cycle_x", start_time := 11, end_time := some 99,
        results := [{ prize_id := "nonexistent_prize", timestamp := 5,
                      cycle_id := "dangling_cycle", draw_number := 77 }],
        completed := true,
        remaining_draws := { red := 3, yellow := 1, blue := 1 } },
    history := [{ id := "old", start_time := 1, end_time := none, results := [],
                  completed := false,
                  remaining_draws := { red := 0, yellow := 0, blue := 0 } }],
    available_prizes :=
      [ { id := "dup", color := .red, name := "a", description := none, icon := none },
        { id := "dup", color := .blue, name := "b", description := none, icon := none } ],
    config := { draws_per_cycle := 6, draws_per_color := 2,
                enable_animations := true, animation_duration := 2000 } }

/-- Frame-property fixture agreeing with `frameStateA` on exactly the values
the validator reads, and on nothing else. -/
def frameStateB : LotteryState :=
  { current_cycle :=
      { id := "cycle_y", start_time := -4, end_time := none,
        results := [{ prize_id := "prize_red_1", timestamp := 8,
                      cycle_id := "cycle_y", draw_number := 1 }],
        completed := false,
        remaining_draws := { red := 3, yellow := 1, blue := 1 } },
    history := [],
    available_prizes := create_default_prizes,
    config := { draws_per_cycle := 6, draws_per_color := 2,
                enable_animations := false, animation_duration := 0 } }

/-- Round-trip witness fixture: a default state with a partially played cycle. -/
def witnessState : LotteryState :=
  { create_default_state 1700000000000 ("0af3") with
    current_cycle :=
      { id := "cycle_w", start_time := 1700000000000, end_time := some 1700000300000,
        results := [{ prize_id := "prize_red_1", timestamp := 1700000100000,
                      cycle_id := "cycle_w", draw_number := 1 }],
        completed := false,
        remaining_draws := { red := 1, yellow := 2, blue := 2 } } }

/-- Live-file contents used by several filesystem fixtures. -/
def liveContent : FileContent := .json (encodeState (create_default_state 0 ("u")))

/-- Filesystem with a healthy live file and a malformed candidate file. -/
def fsC1 : FS := fun q =>
  if q = dataPath then some (.ok liveContent)
  else if q = ("backup_bad.json") then some (.ok (.malformed ("not json")))
  else none

/-- A structurally decodable state violating the logical rules
(`drawsPerCycle = 0`). -/
def invalidCfgState : LotteryState :=
  { create_default_state 0 ("u") with
    config := { draws_per_cycle := 0, draws_per_color := 0,
                enable_animations := true, animation_duration := 2000 } }

/-- Filesystem with a healthy live file and a structurally-valid but
logically-invalid candidate file. -/
def fsC2 : FS := fun q =>
  if q = dataPath then some (.ok liveContent)
  else if q = ("backup_invalid.json") then some (.ok (.json (encodeState invalidCfgState)))
  else none

/-- Empty filesystem (fresh install, no data file). -/
def fsAbsent : FS := fun _ => none

/-- Filesystem whose live data file holds bytes that are not valid JSON. -/
def fsMalformed : FS := fun q =>
  if q = dataPath then some (.ok (.malformed ("garbage bytes"))) else none

/-- Filesystem whose live data file exists but cannot be read. -/
def fsUnreadable : FS := fun q =>
  if q = dataPath then some (.unreadable ("permission denied")) else none

/-- Filesystem whose live data file decodes to a logically-invalid state. -/
def fsInvalid : FS := fun q =>
  if q = dataPath then some (.ok (.json (encodeState invalidCfgState))) else none

theorem ok_bind (a : α) (f : α → Except String β) : (Except.ok a >>= f) = f a := rfl

theorem decodeU32_ofNat (n : Nat) (h : n < U32MOD) :
    decodeU32 (Json.num (Int.ofNat n)) = .ok n := by
  unfold U32MOD at h
  simp only [decodeU32]
  rw [if_pos h]

theorem decodeI64_num (t : Int) (h : wfI64 t = true) :
    decodeI64 (Json.num t) = .ok t := by
  rw [wfI64, decide_eq_true_eq] at h
  unfold I64MIN I64TOP at h
  cases t with
  | ofNat m =>
    rw [Int.ofNat_eq_coe] at h
    simp only [decodeI64]
    rw [if_pos (by omega)]
  | negSucc m =>
    rw [Int.negSucc_eq] at h
    simp only [decodeI64]
    rw [if_pos (by omega)]

theorem decodeResult_encode (r : LotteryResult) (h : wfResult r = true) :
    decodeResult (encodeResult r) = .ok r := by
  obtain ⟨pid, ts, cid, dn⟩ := r
  rw [wfResult, Bool.and_eq_true] at h
  obtain ⟨h1, h2⟩ := h
  rw [wfU32, decide_eq_true_eq] at h2
  simp only at h1 h2
  have step : decodeResult (encodeResult ⟨pid, ts, cid, dn⟩)
      = (decodeI64 (Json.num ts) >>= fun t =>
         decodeU32 (Json.num (Int.ofNat dn)) >>= fun d =>
         Except.ok { prize_id := pid, timestamp := t, cycle_id := cid, draw_number := d }) := rfl
  rw [step]
  simp only [decodeI64_num _ h1, ok_bind, decodeU32_ofNat _ h2]

theorem decodePrize_encode (p : Prize) : decodePrize (encodePrize p) = .ok p := by
  obtain ⟨i, c, n, d, ic⟩ := p
  cases c <;> cases d <;> cases ic <;> rfl

theorem decodeRemaining_encode (d : RemainingDraws) (h : wfRemaining d = true) :
    decodeRemaining (encodeRemaining d) = .ok d := by
  obtain ⟨r, y, b⟩ := d
  rw [wfRemaining, Bool.and_eq_true, Bool.and_eq_true] at h
  obtain ⟨⟨h1, h2⟩, h3⟩ := h
  rw [wfU32, decide_eq_true_eq] at h1 h2 h3
  simp only at h1 h2 h3
  have step : decodeRemaining (encodeRemaining ⟨r, y, b⟩)
      = (decodeU32 (Json.num (Int.ofNat r)) >>= fun a =>
         decodeU32 (Json.num (Int.ofNat y)) >>= fun c =>
         decodeU32 (Json.num (Int.ofNat b)) >>= fun e =>
         Except.ok { red := a, yellow := c, blue := e }) := rfl
  rw [step]
  simp only [decodeU32_ofNat _ h1, decodeU32_ofNat _ h2, decodeU32_ofNat _ h3, ok_bind]

theorem decodeConfig_encode (c : LotteryConfig) (h : wfConfig c = true) :
    decodeConfig (encodeConfig c) = .ok c := by
  obtain ⟨dpc, dpcol, ea, ad⟩ := c
  rw [wfConfig, Bool.and_eq_true, Bool.and_eq_true] at h
  obtain ⟨⟨h1, h2⟩, h3⟩ := h
  rw [wfU32, decide_eq_true_eq] at h1 h2 h3
  simp only at h1 h2 h3
  have step : decodeConfig (encodeConfig ⟨dpc, dpcol, ea, ad⟩)
      = (decodeU32 (Json.num (Int.ofNat dpc)) >>= fun a =>
         decodeU32 (Json.num (Int.ofNat dpcol)) >>= fun b =>
         decodeU32 (Json.num (Int.ofNat ad)) >>= fun d =>
         Except.ok { draws_per_cycle := a, draws_per_color := b,
                     enable_animations := ea, animation_duration := d }) := rfl
  rw [step]
  simp only [decodeU32_ofNat _ h1, decodeU32_ofNat _ h2, decodeU32_ofNat _ h3, ok_bind]

theorem decodeOptWith_encodeOptI64 (et : Option Int)
    (h : (match et with | none => true | some t => wfI64 t) = true) :
    decodeOptWith decodeI64 (some (encodeOptI64 et)) = .ok et := by
  cases et with
  | none => rfl
  | some t =>
    show decodeI64 (Json.num t) >>= (fun a => Except.ok (some a)) = Except.ok (some t)
    rw [decodeI64_num t h]
    rfl

theorem decodeMany_map (d : Json → Except String α) (e : α → Json) (l : List α)
    (H : ∀ x ∈ l, d (e x) = .ok x) : decodeMany d (l.map e) = .ok l := by
  induction l with
  | nil => rfl
  | cons x xs ih =>
    simp only [List.map_cons, decodeMany]
    rw [H x (List.mem_cons_self x xs), ok_bind,
        ih (fun y hy => H y (List.mem_cons_of_mem x hy)), ok_bind]

theorem decodeCycle_encode (c : LotteryCycle) (h : wfCycle c = true) :
    decodeCycle (encodeCycle c) = .ok c := by
  obtain ⟨i, st, et, rs, comp, rem⟩ := c
  rw [wfCycle, Bool.and_eq_true, Bool.and_eq_true, Bool.and_eq_true] at h
  obtain ⟨⟨⟨h1, h2⟩, h3⟩, h4⟩ := h
  simp only at h1 h2 h3 h4
  rw [List.all_eq_true] at h3
  have step : decodeCycle (encodeCycle ⟨i, st, et, rs, comp, rem⟩)
      = (decodeI64 (Json.num st) >>= fun a =>
         decodeOptWith decodeI64 (some (encodeOptI64 et)) >>= fun b =>
         decodeMany decodeResult (rs.map encodeResult) >>= fun c' =>
         decodeRemaining (encodeRemaining rem) >>= fun d =>
         Except.ok { id := i, start_time := a, end_time := b, results := c',
                     completed := comp, remaining_draws := d }) := rfl
  rw [step]
  simp only [decodeI64_num _ h1, ok_bind, decodeOptWith_encodeOptI64 _ h2,
             decodeMany_map _ _ _ (fun r hr => decodeResult_encode r (h3 r hr)),
             decodeRemaining_encode _ h4]

theorem decodeState_encode (s : LotteryState) (h : wfState s = true) :
    decodeState (encodeState s) = .ok s := by
  obtain ⟨cc, hist, prizes, cfg⟩ := s
  rw [wfState, Bool.and_eq_true, Bool.and_eq_true] at h
  obtain ⟨⟨h1, h2⟩, h3⟩ := h
  simp only at h1 h2 h3
  rw [List.all_eq_true] at h2
  have step : decodeState (encodeState ⟨cc, hist, prizes, cfg⟩)
      = (decodeCycle (encodeCycle cc) >>= fun a =>
         decodeMany decodeCycle (hist.map encodeCycle) >>= fun b =>
         decodeMany decodePrize (prizes.map encodePrize) >>= fun c =>
         decodeConfig (encodeConfig cfg) >>= fun d =>
         Except.ok { current_cycle := a, history := b, available_prizes := c, config := d }) := rfl
  rw [step]
  simp only [decodeCycle_encode _ h1, ok_bind,
             decodeMany_map _ _ _ (fun c hc => decodeCycle_encode c (h2 c hc)),
             decodeMany_map _ _ _ (fun p _ => decodePrize_encode p),
             decodeConfig_encode _ h3]
/-- Characterization of the validator: `Ok(true)` exactly when the three
rules hold in the `u32` (mod `2^32`) arithmetic the source computes with. -/
theorem validate_eq_true_iff (s : LotteryState) :
    validate_lottery_state s = .ok true ↔
      (s.config.draws_per_cycle ≠ 0 ∧ s.config.draws_per_color ≠ 0 ∧
       s.config.draws_per_cycle = (s.config.draws_per_color * 3) % U32MOD ∧
       (((s.current_cycle.remaining_draws.red + s.current_cycle.remaining_draws.yellow) % U32MOD
           + s.current_cycle.remaining_draws.blue) % U32MOD
         + s.current_cycle.results.length % U32MOD) % U32MOD = s.config.draws_per_cycle ∧
       s.available_prizes ≠ []) := by
  simp only [validate_lottery_state]
  by_cases h1 : (s.config.draws_per_cycle = 0 ∨ s.config.draws_per_color = 0
      ∨ s.config.draws_per_cycle ≠ (s.config.draws_per_color * 3) % U32MOD)
  · rw [if_pos h1]
    apply iff_of_false (by simp)
    rintro ⟨b1, b2, b3, _, _⟩
    rcases h1 with h | h | h
    exacts [b1 h, b2 h, h b3]
  · rw [if_neg h1]
    push_neg at h1
    obtain ⟨g1, g2, g3⟩ := h1
    by_cases h2 : (((s.current_cycle.remaining_draws.red + s.current_cycle.remaining_draws.yellow) % U32MOD
        + s.current_cycle.remaining_draws.blue) % U32MOD
      + s.current_cycle.results.length % U32MOD) % U32MOD = s.config.draws_per_cycle
    · rw [if_neg (not_ne_iff.mpr h2)]
      by_cases h3 : s.available_prizes.isEmpty
      · rw [if_pos h3]
        rw [List.isEmpty_iff] at h3
        apply iff_of_false (by simp)
        rintro ⟨_, _, _, _, b5⟩
        exact b5 h3
      · rw [if_neg h3]
        rw [List.isEmpty_iff] at h3
        exact iff_of_true rfl ⟨g1, g2, g3, h2, h3⟩
    · rw [if_pos h2]
      apply iff_of_false (by simp)
      rintro ⟨_, _, _, b4, _⟩
      exact h2 b4

/-- The validator always returns a plain boolean, never an error. -/
theorem validate_bool (s : LotteryState) :
    validate_lottery_state s = .ok true ∨ validate_lottery_state s = .ok false := by
  unfold validate_lottery_state
  split_ifs <;> simp
  tauto

/-- The copy-failure error of `backup_data` never spells the no-data error. -/
theorem backup_err_ne (msg : String) :
    (("备份失败: ") ++ msg) ≠ ("没有找到数据文件，无法备份") := by
  intro h
  have h1 : ((("备份失败: ") ++ msg).data.head?) = some '备' := rfl
  rw [h] at h1
  exact absurd h1 (by decide)

/-- A backup path never collides with the live data path, whatever the
timestamp: the lengths cannot agree. -/
theorem backupPath_ne_dataPath (ts : String) : backupPath ts ≠ dataPath := by
  intro h
  have hl := congrArg String.length h
  rw [backupPath, dataPath, lotteryDir] at hl
  simp only [String.length_append] at hl
  have e1 : (("/data_backup_") : String).length = 13 := rfl
  have e2 : (((".json")) : String).length = 5 := rfl
  have e3 : (("/data.json") : String).length = 10 := rfl
  omega

/-- Claim C1: for every call to `restore_from_backup` with an existing,
readable candidate file whose bytes do not decode as a `LotteryState`, the
operation returns the decode error and the filesystem — in particular the
live data file — is left unchanged: the decode happens before any write to
the live path. -/
theorem C1_restore_decode_failure (fs : FS) (p : String) (c : FileContent) (e : String)
    (hc : fs p = some (.ok c)) (hd : decodeContent c = .error e) :
    (restore_from_backup p fs).1 = .error (("备份文件格式错误: ") ++ e) ∧
    (restore_from_backup p fs).2 dataPath = fs dataPath ∧
    (restore_from_backup p fs).2 = fs := by
  have key : restore_from_backup p fs = (.error (("备份文件格式错误: ") ++ e), fs) := by
    unfold restore_from_backup
    rw [hc]
    show (match decodeContent c with
          | Except.error e => (Except.error (("备份文件格式错误: ") ++ e), fs)
          | Except.ok _ => (Except.ok (), writeFile fs dataPath c)) = _
    rw [hd]
  rw [key]
  exact ⟨rfl, rfl, rfl⟩

/-- Witness for C1 at a concrete filesystem with a malformed candidate. -/
theorem C1_restore_decode_failure_witness :
    (restore_from_backup ("backup_bad.json") fsC1).1
      = .error (("备份文件格式错误: ") ++ ("JSON parse failure")) ∧
    (restore_from_backup ("backup_bad.json") fsC1).2 dataPath = fsC1 dataPath ∧
    (restore_from_backup ("backup_bad.json") fsC1).2 = fsC1 :=
  C1_restore_decode_failure fsC1 ("backup_bad.json") (.malformed ("not json"))
    ("JSON parse failure") rfl rfl

/-- Claim C2: `restore_from_backup` applies structural decoding only — every
existing candidate that decodes as a `LotteryState` (logical validity not
required) makes the restore succeed with the live file byte-identical to the
candidate; a missing candidate fails with the not-found error before any
destructive action. -/
theorem C2_restore_structural (fs : FS) (p : String) :
    (∀ c s, fs p = some (.ok c) → decodeContent c = .ok s →
      (restore_from_backup p fs).1 = .ok () ∧
      (restore_from_backup p fs).2 dataPath = some (.ok c)) ∧
    (fs p = none →
      (restore_from_backup p fs).1 = .error ("备份文件不存在") ∧
      (restore_from_backup p fs).2 = fs) := by
  constructor
  · intro c s hc hd
    have key : restore_from_backup p fs = (.ok (), writeFile fs dataPath c) := by
      unfold restore_from_backup
      rw [hc]
      show (match decodeContent c with
            | Except.error e => (Except.error (("备份文件格式错误: ") ++ e), fs)
            | Except.ok _ => (Except.ok (), writeFile fs dataPath c)) = _
      rw [hd]
    rw [key]
    exact ⟨rfl, rfl⟩
  · intro hn
    have key : restore_from_backup p fs = (.error ("备份文件不存在"), fs) := by
      unfold restore_from_backup
      rw [hn]
    rw [key]
    exact ⟨rfl, rfl⟩

/-- Witness for C2: restoring a logically-invalid (`drawsPerCycle = 0`) but
structurally-valid candidate succeeds and overwrites the live file; restoring
a missing candidate fails without touching anything. -/
theorem C2_restore_structural_witness :
    ((restore_from_backup ("backup_invalid.json") fsC2).1 = .ok () ∧
     (restore_from_backup ("backup_invalid.json") fsC2).2 dataPath
       = some (.ok (.json (encodeState invalidCfgState)))) ∧
    validate_lottery_state invalidCfgState = .ok false ∧
    ((restore_from_backup ("backup_none.json") fsC2).1 = .error ("备份文件不存在") ∧
     (restore_from_backup ("backup_none.json") fsC2).2 = fsC2) :=
  ⟨(C2_restore_structural fsC2 ("backup_invalid.json")).1
      (.json (encodeState invalidCfgState)) invalidCfgState rfl rfl,
   rfl,
   (C2_restore_structural fsC2 ("backup_none.json")).2 rfl⟩

/-- Counterexample to Claim C3 as stated: `overflowStateA` has `u32`-in-range
fields, is accepted by the validator, yet its true draw count
`len(results) + red + yellow + blue = 2^32 + 6` differs from
`drawsPerCycle = 6` — rule (2) read over the integers fails. -/
theorem C3_counterexample :
    validate_lottery_state overflowStateA = .ok true ∧
    wfState overflowStateA = true ∧
    overflowStateA.current_cycle.results.length
        + overflowStateA.current_cycle.remaining_draws.red
        + overflowStateA.current_cycle.remaining_draws.yellow
        + overflowStateA.current_cycle.remaining_draws.blue
      ≠ overflowStateA.config.draws_per_cycle := by
  refine ⟨rfl, rfl, ?_⟩
  decide

/-- Claim C3 (amended): `validate_lottery_state` returns `Ok(true)` iff the
three rules hold with the arithmetic of rules (1) and (2) computed in `u32`,
i.e. modulo `2^32` (`drawsPerColor * 3` wraps, and the draw-count sum and the
`as u32`-cast result length wrap); otherwise it returns `Ok(false)` — callers
receive only this overall boolean. -/
theorem C3_amended_validate_iff (s : LotteryState) :
    (validate_lottery_state s = .ok true ∨ validate_lottery_state s = .ok false) ∧
    (validate_lottery_state s = .ok true ↔
      (s.config.draws_per_cycle ≠ 0 ∧ s.config.draws_per_color ≠ 0 ∧
       s.config.draws_per_cycle = (s.config.draws_per_color * 3) % U32MOD ∧
       (((s.current_cycle.remaining_draws.red + s.current_cycle.remaining_draws.yellow) % U32MOD
           + s.current_cycle.remaining_draws.blue) % U32MOD
         + s.current_cycle.results.length % U32MOD) % U32MOD = s.config.draws_per_cycle ∧
       s.available_prizes ≠ [])) :=
  ⟨validate_bool s, validate_eq_true_iff s⟩

/-- Claim C4: the default-state factory always produces empty results,
`completed = false`, no `endTime`, remaining draws `{2, 2, 2}`, empty
history, exactly the six fixed prizes (two per color with deterministic ids),
the fixed config, and its output always validates to `true`. -/
theorem C4_default_state (now : Int) (uuid : String) :
    (create_default_state now uuid).current_cycle.results = [] ∧
    (create_default_state now uuid).current_cycle.completed = false ∧
    (create_default_state now uuid).current_cycle.end_time = none ∧
    (create_default_state now uuid).current_cycle.remaining_draws
      = { red := 2, yellow := 2, blue := 2 } ∧
    (create_default_state now uuid).history = [] ∧
    (create_default_state now uuid).available_prizes = create_default_prizes ∧
    (create_default_state now uuid).available_prizes.length = 6 ∧
    (create_default_state now uuid).available_prizes.map Prize.id
      = ["prize_red_1", "prize_red_2", "prize_yellow_1", "prize_yellow_2",
         "prize_blue_1", "prize_blue_2"] ∧
    (create_default_state now uuid).available_prizes.map Prize.color
      = [.red, .red, .yellow, .yellow, .blue, .blue] ∧
    (create_default_state now uuid).config
      = { draws_per_cycle := 6, draws_per_color := 2,
          enable_animations := true, animation_duration := 2000 } ∧
    validate_lottery_state (create_default_state now uuid) = .ok true :=
  ⟨rfl, rfl, rfl, rfl, rfl, rfl, rfl, rfl, rfl, rfl, rfl⟩

/-- Claim C5: encode/decode round-trip — decoding the canonical JSON encoding
used by `save_lottery_data` yields the original state, field for field, for
every state whose numeric fields are in the ranges the Rust types guarantee. -/
theorem C5_roundtrip (s : LotteryState) (h : wfState s = true) :
    decodeState (encodeState s) = .ok s :=
  decodeState_encode s h

/-- Witness for C5 at a concrete mid-cycle state. -/
theorem C5_roundtrip_witness :
    wfState witnessState = true ∧
    decodeState (encodeState witnessState) = .ok witnessState :=
  ⟨rfl, C5_roundtrip witnessState rfl⟩

/-- Claim C6: `load_lottery_data` on an absent data file returns the
default-state factory output as a normal outcome without writing anything;
on a present file whose bytes fail to decode it returns the
format-error/corrupted error rather than falling back to defaults. -/
theorem C6_load (fs : FS) (now : Int) (uuid : String) :
    (fs dataPath = none →
      load_lottery_data now uuid fs = (.ok (create_default_state now uuid), fs)) ∧
    (∀ c e, fs dataPath = some (.ok c) → decodeContent c = .error e →
      load_lottery_data now uuid fs = (.error (("数据格式错误，可能已损坏: ") ++ e), fs)) := by
  constructor
  · intro hn
    unfold load_lottery_data
    rw [hn]
  · intro c e hc hd
    unfold load_lottery_data
    rw [hc]
    show (match decodeContent c with
          | Except.error e => (Except.error (("数据格式错误，可能已损坏: ") ++ e), fs)
          | Except.ok st => (Except.ok st, fs)) = _
    rw [hd]

/-- Witness for C6 on the empty filesystem and on a malformed data file. -/
theorem C6_load_witness :
    load_lottery_data 0 ("u") fsAbsent = (.ok (create_default_state 0 ("u")), fsAbsent) ∧
    load_lottery_data 0 ("u") fsMalformed
      = (.error (("数据格式错误，可能已损坏: ") ++ ("JSON parse failure")), fsMalformed) :=
  ⟨(C6_load fsAbsent 0 ("u")).1 rfl,
   (C6_load fsMalformed 0 ("u")).2 (.malformed ("garbage bytes")) ("JSON parse failure") rfl rfl⟩

/-- Claim C7: `backup_data` fails with the no-data error exactly when the
live file does not exist (and then changes nothing); on a readable live file
it succeeds, returns the `data_backup_<ts>.json` path in the same directory,
leaves every other path — in particular the live file — unchanged, and the
backup holds the live file's exact bytes (a same-second collision is simply
overwritten). -/
theorem C7_backup (fs : FS) (ts : String) :
    ((backup_data ts fs).1 = .error ("没有找到数据文件，无法备份") ↔ fs dataPath = none) ∧
    (fs dataPath = none → (backup_data ts fs).2 = fs) ∧
    (∀ c, fs dataPath = some (.ok c) →
      (backup_data ts fs).1 = .ok (backupPath ts) ∧
      (backup_data ts fs).2 dataPath = fs dataPath ∧
      (backup_data ts fs).2 (backupPath ts) = some (.ok c) ∧
      ∀ q, q ≠ backupPath ts → (backup_data ts fs).2 q = fs q) := by
  refine ⟨?_, ?_, ?_⟩
  · cases hfs : fs dataPath with
    | none =>
      unfold backup_data
      rw [hfs]
      simp
    | some entry =>
      cases entry with
      | ok c =>
        unfold backup_data
        rw [hfs]
        simp
      | unreadable m =>
        unfold backup_data
        rw [hfs]
        constructor
        · intro hh
          simp only [Except.error.injEq] at hh
          exact absurd hh (backup_err_ne m)
        · intro hh
          exact absurd hh (by simp)
  · intro hn
    unfold backup_data
    rw [hn]
  · intro c hc
    have key : backup_data ts fs = (.ok (backupPath ts), writeFile fs (backupPath ts) c) := by
      unfold backup_data
      rw [hc]
    rw [key]
    refine ⟨rfl, ?_, ?_, ?_⟩
    · show writeFile fs (backupPath ts) c dataPath = fs dataPath
      unfold writeFile
      rw [if_neg (fun hcontra => backupPath_ne_dataPath ts hcontra.symm)]
    · show writeFile fs (backupPath ts) c (backupPath ts) = some (.ok c)
      unfold writeFile
      rw [if_pos rfl]
    · intro q hq
      show writeFile fs (backupPath ts) c q = fs q
      unfold writeFile
      rw [if_neg hq]

/-- Witness for C7 on the empty filesystem and on one with a live file. -/
theorem C7_backup_witness :
    ((backup_data ("20250101_000000") fsAbsent).1
        = .error ("没有找到数据文件，无法备份") ∧
     (backup_data ("20250101_000000") fsAbsent).2 = fsAbsent) ∧
    ((backup_data ("20250101_000000") fsC1).1
        = .ok (backupPath ("20250101_000000")) ∧
     (backup_data ("20250101_000000") fsC1).2 dataPath = fsC1 dataPath ∧
     (backup_data ("20250101_000000") fsC1).2 (backupPath ("20250101_000000"))
        = some (.ok liveContent)) :=
  ⟨⟨((C7_backup fsAbsent ("20250101_000000")).1).mpr rfl,
    (C7_backup fsAbsent ("20250101_000000")).2.1 rfl⟩,
   ⟨((C7_backup fsC1 ("20250101_000000")).2.2 liveContent rfl).1,
    ((C7_backup fsC1 ("20250101_000000")).2.2 liveContent rfl).2.1,
    ((C7_backup fsC1 ("20250101_000000")).2.2 liveContent rfl).2.2.1⟩⟩

/-- Claim C8: `validate_data` only ever yields a boolean for data-level
failures — `true` when the file is absent, `false` (never a propagated
error) when the file is unreadable, when its bytes fail to decode, or when
the decoded state fails the logical rules; unreadable and invalid are
conflated into the same `false`. -/
theorem C8_validate_data (fs : FS) :
    ((validate_data fs).1 = .ok true ∨ (validate_data fs).1 = .ok false) ∧
    (fs dataPath = none → (validate_data fs).1 = .ok true) ∧
    (∀ m, fs dataPath = some (.unreadable m) → (validate_data fs).1 = .ok false) ∧
    (∀ c e, fs dataPath = some (.ok c) → decodeContent c = .error e →
      (validate_data fs).1 = .ok false) ∧
    (∀ c s, fs dataPath = some (.ok c) → decodeContent c = .ok s →
      validate_lottery_state s = .ok false → (validate_data fs).1 = .ok false) := by
  refine ⟨?_, ?_, ?_, ?_, ?_⟩
  · cases hfs : fs dataPath with
    | none =>
      unfold validate_data
      rw [hfs]
      left
      rfl
    | some entry =>
      cases entry with
      | unreadable m =>
        unfold validate_data
        rw [hfs]
        right
        rfl
      | ok c =>
        unfold validate_data
        rw [hfs]
        show (match decodeContent c with
              | Except.error _ => ((Except.ok false : Except String Bool), fs)
              | Except.ok st => (validate_lottery_state st, fs)).1 = .ok true ∨
             (match decodeContent c with
              | Except.error _ => ((Except.ok false : Except String Bool), fs)
              | Except.ok st => (validate_lottery_state st, fs)).1 = .ok false
        cases hd : decodeContent c with
        | error e =>
          right
          rfl
        | ok st =>
          exact validate_bool st
  · intro hn
    unfold validate_data
    rw [hn]
  · intro m hm
    unfold validate_data
    rw [hm]
  · intro c e hc hd
    unfold validate_data
    rw [hc]
    show ((match decodeContent c with
           | Except.error _ => ((Except.ok false : Except String Bool), fs)
           | Except.ok st => (validate_lottery_state st, fs))).1 = .ok false
    rw [hd]
  · intro c s hc hd hv
    unfold validate_data
    rw [hc]
    show ((match decodeContent c with
           | Except.error _ => ((Except.ok false : Except String Bool), fs)
           | Except.ok st => (validate_lottery_state st, fs))).1 = .ok false
    rw [hd]
    exact hv

/-- Witness for C8 on four concrete filesystems: absent, unreadable,
malformed, and logically-invalid data files. -/
theorem C8_validate_data_witness :
    (validate_data fsAbsent).1 = .ok true ∧
    (validate_data fsUnreadable).1 = .ok false ∧
    (validate_data fsMalformed).1 = .ok false ∧
    (validate_data fsInvalid).1 = .ok false :=
  ⟨(C8_validate_data fsAbsent).2.1 rfl,
   (C8_validate_data fsUnreadable).2.2.1 ("permission denied") rfl,
   (C8_validate_data fsMalformed).2.2.2.1 (.malformed ("garbage bytes"))
     ("JSON parse failure") rfl rfl,
   (C8_validate_data fsInvalid).2.2.2.2 (.json (encodeState invalidCfgState))
     invalidCfgState rfl rfl rfl⟩

/-- Claim C9: the draw-count conservation check is decided in `u32`
arithmetic modulo `2^32` — witnessed by a `u32`-in-range state whose wrapped
counter sum passes the check while its true draw count differs from
`drawsPerCycle`, together with the mod-`2^32` characterization of the
validator. -/
theorem C9_u32_wraparound :
    (validate_lottery_state overflowStateB = .ok true ∧
     wfState overflowStateB = true ∧
     overflowStateB.current_cycle.results.length
         + overflowStateB.current_cycle.remaining_draws.red
         + overflowStateB.current_cycle.remaining_draws.yellow
         + overflowStateB.current_cycle.remaining_draws.blue
       ≠ overflowStateB.config.draws_per_cycle) ∧
    (∀ s : LotteryState, validate_lottery_state s = .ok true ↔
      (s.config.draws_per_cycle ≠ 0 ∧ s.config.draws_per_color ≠ 0 ∧
       s.config.draws_per_cycle = (s.config.draws_per_color * 3) % U32MOD ∧
       (((s.current_cycle.remaining_draws.red + s.current_cycle.remaining_draws.yellow) % U32MOD
           + s.current_cycle.remaining_draws.blue) % U32MOD
         + s.current_cycle.results.length % U32MOD) % U32MOD = s.config.draws_per_cycle ∧
       s.available_prizes ≠ [])) :=
  ⟨⟨rfl, rfl, by decide⟩, validate_eq_true_iff⟩

/-- Claim C10: the validator's verdict depends only on `drawsPerCycle`,
`drawsPerColor`, the current results length, the three remaining-draw
counters, and prize-list emptiness — two states agreeing on exactly these
get the same verdict whatever their history, prize details, ids, timestamps,
`endTime` or `completed` flag. -/
theorem C10_frame (s t : LotteryState)
    (h1 : s.config.draws_per_cycle = t.config.draws_per_cycle)
    (h2 : s.config.draws_per_color = t.config.draws_per_color)
    (h3 : s.current_cycle.results.length = t.current_cycle.results.length)
    (h4 : s.current_cycle.remaining_draws.red = t.current_cycle.remaining_draws.red)
    (h5 : s.current_cycle.remaining_draws.yellow = t.current_cycle.remaining_draws.yellow)
    (h6 : s.current_cycle.remaining_draws.blue = t.current_cycle.remaining_draws.blue)
    (h7 : s.available_prizes = [] ↔ t.available_prizes = []) :
    validate_lottery_state s = validate_lottery_state t := by
  have h8 : s.available_prizes.isEmpty = t.available_prizes.isEmpty := by
    cases hs : s.available_prizes <;> cases ht : t.available_prizes <;> simp_all
  simp only [validate_lottery_state]
  rw [h1, h2, h3, h4, h5, h6, h8]

/-- Witness for C10: two states differing in everything the validator does
not read — duplicate prize ids, dangling references, inconsistent history —
receive the same verdict. -/
theorem C10_frame_witness :
    validate_lottery_state frameStateA = validate_lottery_state frameStateB :=
  C10_frame frameStateA frameStateB rfl rfl rfl rfl rfl rfl (by decide)
